import Mathlib

/-!
Verification of the service registration and constructor-based
dependency-injection core documented by this repository.

The repository itself contains only documentation (Markdown articles and
static-site configuration); the framework it documents is not implemented
under src/.  The definitions below are therefore a shallow embedding of the
registration core as described by the specification and the documentation
articles: ServiceRegistry, ConstructorResolver, RegistrationSequencer and
PlatformGate.  Every definition is marked `Modelled from the spec:` with the
contract it follows.
-/

namespace ServiceFramework

/-- Modelled from the spec: a `TypeRef` identifies a C# type.  The
documentation distinguishes interface types implementing `IService`
(injectable) from concrete implementation types (never injectable), so a
type reference carries those two flags alongside an identifier. -/
structure TypeRef where
  id : Nat
  isInterface : Bool
  implementsIService : Bool
deriving DecidableEq, Repr

/-- Modelled from the spec: a `RegisteredService` record,
`{interfaceType, instance (opaque handle), name}`, created on successful
registration.  The opaque instance handle is a natural number. -/
structure RegisteredService where
  interfaceType : TypeRef
  inst : Nat
  name : String
deriving DecidableEq, Repr

/-- Modelled from the spec: the ServiceRegistry store, keyed by interface
type.  Registration order is kept, so the store is a list of records. -/
abbrev Registry := List RegisteredService

/-- Modelled from the spec: the error taxonomy of the ServiceRegistry,
`AlreadyRegisteredError` for a duplicate interface registration attempt and
`NotFoundError` for a failed lookup or unregistration. -/
inductive RegError where
  | AlreadyRegisteredError (t : TypeRef)
  | NotFoundError (t : TypeRef)
deriving DecidableEq, Repr

/-- Modelled from the spec: whether an interface type is already occupied
in the registry. -/
def occupied (r : Registry) (t : TypeRef) : Bool :=
  r.any (fun rs => rs.interfaceType == t)

/-- Modelled from the spec: `register(interfaceType, instance, name) ->
success | AlreadyRegisteredError`.  A second registration attempt for an
already-occupied interface fails without mutating state. -/
def register (r : Registry) (t : TypeRef) (i : Nat) (n : String) :
    Except RegError Registry :=
  if occupied r t then .error (.AlreadyRegisteredError t)
  else .ok (r ++ [⟨t, i, n⟩])

/-- Modelled from the spec: `lookup(interfaceType) -> instance |
NotFoundError`. -/
def lookup (r : Registry) (t : TypeRef) : Except RegError Nat :=
  match r.find? (fun rs => rs.interfaceType == t) with
  | some rs => .ok rs.inst
  | none => .error (.NotFoundError t)

/-- Modelled from the spec: `unregister(interfaceType) -> success |
NotFoundError`. -/
def unregister (r : Registry) (t : TypeRef) : Except RegError Registry :=
  if occupied r t then .ok (r.filter (fun rs => !(rs.interfaceType == t)))
  else .error (.NotFoundError t)

/-- Modelled from the spec: a constructor parameter of a service concrete
type.  The documentation fixes the three leading base parameters `name`,
`priority`, `profile`; every following parameter is a dependency type. -/
inductive CParam where
  | pname
  | ppriority
  | pprofile
  | pdep (t : TypeRef)
deriving DecidableEq, Repr

/-- Modelled from the spec: a `ServiceDescriptor`
`{name, interfaceType, constructor parameter list, priority, platforms}`.
The dependency edge is not materialized: it is inferred from the concrete
constructor signature at registration time, so the descriptor carries the
constructor parameter list of its concrete type. -/
structure Descriptor where
  name : String
  interfaceType : TypeRef
  ctorParams : List CParam
  priority : Nat
  platforms : List Nat
deriving DecidableEq, Repr

/-- Modelled from the spec: the dependency parameters after the base three,
each of which must be an interface type implementing `IService`; a concrete
type among them makes the signature invalid. -/
def depTypes : List CParam → Option (List TypeRef)
  | [] => some []
  | .pdep t :: rest =>
      if t.isInterface && t.implementsIService then
        (depTypes rest).map (fun ts => t :: ts)
      else none
  | .pname :: _ => none
  | .ppriority :: _ => none
  | .pprofile :: _ => none

/-- Modelled from the spec: constructor signature validation.  The first
three parameters must be exactly `name`, `priority`, `profile`; the
remaining ones are the declared dependencies, in declared order.  A
constructor not following this pattern makes registration fail
(Wrong Constructor Signature). -/
def declaredDeps : List CParam → Option (List TypeRef)
  | .pname :: .ppriority :: .pprofile :: rest => depTypes rest
  | _ => none

/-- Modelled from the spec: `MissingDependencyError`, naming the first
unresolved parameter type and the dependent service. -/
structure MissingDep where
  paramType : TypeRef
  dependent : String
deriving DecidableEq, Repr

/-- Modelled from the spec: the ConstructorResolver resolves each declared
dependency by a registry lookup, in declared order, and fails with
`MissingDependencyError` at the first unresolved parameter.  It does not
attempt transitive resolution: each dependency must already be registered. -/
def resolveDeps (r : Registry) (sname : String) :
    List TypeRef → Except MissingDep (List Nat)
  | [] => .ok []
  | t :: rest =>
      match lookup r t with
      | .ok i => (resolveDeps r sname rest).map (fun as => i :: as)
      | .error _ => .error ⟨t, sname⟩

/-- Modelled from the spec: `PlatformGate.isEligible(descriptor,
activePlatform) -> bool`: the descriptor is eligible exactly when its
platform set contains the active platform. -/
def isEligible (d : Descriptor) (active : Nat) : Bool :=
  d.platforms.contains active

/-- Modelled from the spec: the per-descriptor report of the sequencer.
Failures are reported (logged) to the caller, never thrown as fatal
aborts of the whole sequence. -/
inductive Outcome where
  | registered (sname : String) (t : TypeRef) (inst : Nat) (args : List Nat)
  | skippedPlatform (sname : String)
  | failedMissingDep (e : MissingDep)
  | failedAlreadyRegistered (sname : String) (t : TypeRef)
  | failedBadSignature (sname : String)
deriving DecidableEq, Repr

/-- The service name an outcome reports on. -/
def Outcome.sname : Outcome → String
  | .registered n _ _ _ => n
  | .skippedPlatform n => n
  | .failedMissingDep e => e.dependent
  | .failedAlreadyRegistered n _ => n
  | .failedBadSignature n => n

/-- Whether an outcome is a reported failure (missing dependency or
already-registered conflict or bad signature). -/
def Outcome.isFailure : Outcome → Bool
  | .failedMissingDep _ => true
  | .failedAlreadyRegistered _ _ => true
  | .failedBadSignature _ => true
  | _ => false

/-- Modelled from the spec: the sequencer state — the registry plus a
fresh-handle counter standing for allocation of new service instances. -/
structure SeqState where
  registry : Registry
  nextInst : Nat
deriving DecidableEq, Repr

/-- Modelled from the spec: processing of one descriptor by the
RegistrationSequencer: apply PlatformGate (an ineligible descriptor is
skipped entirely), then ConstructorResolver, then `ServiceRegistry.register`.
A failure aborts only this descriptor's registration and leaves the state
unchanged. -/
def processOne (active : Nat) (st : SeqState) (d : Descriptor) :
    SeqState × Outcome :=
  if isEligible d active then
    match declaredDeps d.ctorParams with
    | none => (st, .failedBadSignature d.name)
    | some deps =>
        match resolveDeps st.registry d.name deps with
        | .error e => (st, .failedMissingDep e)
        | .ok args =>
            match register st.registry d.interfaceType st.nextInst d.name with
            | .error _ => (st, .failedAlreadyRegistered d.name d.interfaceType)
            | .ok r2 =>
                (⟨r2, st.nextInst + 1⟩,
                 .registered d.name d.interfaceType st.nextInst args)
  else (st, .skippedPlatform d.name)

/-- Modelled from the spec: the RegistrationSequencer iterates the
descriptors in configured order, strictly sequentially, processing one
descriptor fully before advancing, and reports one outcome per
descriptor. -/
def runSequencer (active : Nat) (st : SeqState) :
    List Descriptor → SeqState × List Outcome
  | [] => (st, [])
  | d :: rest =>
      let p := processOne active st d
      let q := runSequencer active p.1 rest
      (q.1, p.2 :: q.2)

/-- Modelled from the spec: the whole-process state — the set of active
platforms, evaluated once at process start and cached, and the registry. -/
structure ProcessState where
  activePlatforms : List Nat
  registry : Registry
deriving DecidableEq, Repr

/-- Modelled from the spec: process start — `CheckPlatforms` scans once
and caches the active platform set; the registry starts empty. -/
def initProcess (scanned : List Nat) : ProcessState :=
  ⟨scanned, []⟩

/-- Modelled from the spec: the operations available after process start:
registration, lookup, unregistration, and a sequencer run. -/
inductive Op where
  | reg (t : TypeRef) (i : Nat) (n : String)
  | unreg (t : TypeRef)
  | look (t : TypeRef)
  | runSeq (active : Nat) (ds : List Descriptor)
deriving DecidableEq, Repr

/-- Modelled from the spec: applying one operation to the process state.
No operation re-evaluates or modifies the cached platform set. -/
def applyOp (p : ProcessState) : Op → ProcessState
  | .reg t i n =>
      match register p.registry t i n with
      | .ok r2 => ⟨p.activePlatforms, r2⟩
      | .error _ => p
  | .unreg t =>
      match unregister p.registry t with
      | .ok r2 => ⟨p.activePlatforms, r2⟩
      | .error _ => p
  | .look _ => p
  | .runSeq active ds =>
      ⟨p.activePlatforms, (runSequencer active ⟨p.registry, 0⟩ ds).1.registry⟩

/-- The number of registered services for a given interface type. -/
def countFor (r : Registry) (t : TypeRef) : Nat :=
  (r.filter (fun rs => rs.interfaceType == t)).length

/-- Modelled from the spec: the registry states reachable from the empty
registry through successful register and unregister operations. -/
inductive Reachable : Registry → Prop
  | empty : Reachable []
  | regStep (r r' : Registry) (t : TypeRef) (i : Nat) (n : String) :
      Reachable r → register r t i n = .ok r' → Reachable r'
  | unregStep (r r' : Registry) (t : TypeRef) :
      Reachable r → unregister r t = .ok r' → Reachable r'

/-- An interface never occupied in the registry is looked up as
`NotFoundError`. -/
theorem lookup_error_of_not_occupied (r : Registry) (t : TypeRef)
    (h : occupied r t = false) : lookup r t = .error (.NotFoundError t) := by
  have hfind : r.find? (fun rs => rs.interfaceType == t) = none := by
    rw [List.find?_eq_none]
    intro x hx hbeq
    have hany : r.any (fun rs => rs.interfaceType == t) = true :=
      List.any_eq_true.mpr ⟨x, hx, hbeq⟩
    rw [occupied] at h
    rw [hany] at h
    exact Bool.noConfusion h
  rw [lookup, hfind]

/-- An occupied interface is looked up successfully. -/
theorem lookup_ok_of_occupied (r : Registry) (t : TypeRef)
    (h : occupied r t = true) : ∃ i, lookup r t = .ok i := by
  rw [occupied, List.any_eq_true] at h
  obtain ⟨x, hx, hbeq⟩ := h
  have hs : (r.find? (fun rs => rs.interfaceType == t)).isSome :=
    List.find?_isSome.mpr ⟨x, hx, hbeq⟩
  rw [lookup]
  cases hfind : r.find? (fun rs => rs.interfaceType == t) with
  | none => rw [hfind] at hs; simp at hs
  | some rs => exact ⟨rs.inst, rfl⟩

/-- A non-occupied interface has no registered service. -/
theorem countFor_eq_zero_of_not_occupied (r : Registry) (t : TypeRef)
    (h : occupied r t = false) : countFor r t = 0 := by
  rw [countFor, List.length_eq_zero, List.filter_eq_nil_iff]
  intro a ha hbeq
  have hany : r.any (fun rs => rs.interfaceType == t) = true :=
    List.any_eq_true.mpr ⟨a, ha, hbeq⟩
  rw [occupied] at h
  rw [hany] at h
  exact Bool.noConfusion h

/-- Filtering the registry cannot increase the count for any interface. -/
theorem countFor_filter_le (r : Registry) (q : RegisteredService → Bool)
    (u : TypeRef) : countFor (r.filter q) u ≤ countFor r u :=
  List.Sublist.length_le (List.Sublist.filter _ (List.filter_sublist r))

/-- The ServiceRegistry invariant: every reachable registry state holds at
most one registered service per interface type. -/
theorem reachable_countFor_le (r : Registry) (h : Reachable r) (u : TypeRef) :
    countFor r u ≤ 1 := by
  induction h with
  | empty => simp [countFor]
  | regStep r r' t i n hr hreg ih =>
      rw [register] at hreg
      by_cases hocc : occupied r t = true
      · rw [if_pos hocc] at hreg; exact absurd hreg (by simp)
      · rw [if_neg hocc] at hreg
        have hr' : r' = r ++ [⟨t, i, n⟩] := by
          cases hreg; rfl
        subst hr'
        rw [countFor, List.filter_append, List.length_append]
        by_cases hbeq : (t == u) = true
        · have htu : t = u := by exact beq_iff_eq.mp hbeq
          subst htu
          have h0 : countFor r t = 0 :=
            countFor_eq_zero_of_not_occupied r t (Bool.not_eq_true _ ▸ hocc)
          rw [countFor] at h0
          rw [h0]
          simp
        · have : List.filter (fun rs => rs.interfaceType == u)
              [(⟨t, i, n⟩ : RegisteredService)] = [] := by
            simp [List.filter, hbeq]
          rw [this]
          simpa using ih
  | unregStep r r' t hr hunreg ih =>
      rw [unregister] at hunreg
      by_cases hocc : occupied r t = true
      · rw [if_pos hocc] at hunreg
        have hr' : r' = r.filter (fun rs => !(rs.interfaceType == t)) := by
          cases hunreg; rfl
        subst hr'
        exact le_trans (countFor_filter_le r _ u) ih
      · rw [if_neg hocc] at hunreg; exact absurd hunreg (by simp)

/-- A failed registration leaves the sequencer state untouched: if the
interface of a descriptor is already occupied, processing it cannot change
the state, whatever branch is taken. -/
theorem processOne_state_eq_of_occupied (active : Nat) (st : SeqState)
    (d : Descriptor) (hocc : occupied st.registry d.interfaceType = true) :
    (processOne active st d).1 = st := by
  rw [processOne]
  split
  · split
    · rfl
    · split
      · rfl
      · split
        · rfl
        · rename_i r2 heq
          rw [register, if_pos hocc] at heq
          exact Except.noConfusion heq
  · rfl

/-- C1: for every reachable registry state, at most one registered service
exists for any interface type; a register call for an already-occupied
interface fails with AlreadyRegisteredError, and the sequencer leaves the
state unchanged (first registration intact) when processing a descriptor
whose interface is already occupied. -/
theorem at_most_one_registration_per_interface (r : Registry)
    (h : Reachable r) (t : TypeRef) (i : Nat) (n : String)
    (hocc : occupied r t = true) (active : Nat) (st : SeqState)
    (d : Descriptor) (hst : st.registry = r) (hd : d.interfaceType = t) :
    countFor r t ≤ 1 ∧
    register r t i n = .error (.AlreadyRegisteredError t) ∧
    (processOne active st d).1 = st := by
  refine ⟨reachable_countFor_le r h t, ?_, ?_⟩
  · rw [register, if_pos hocc]
  · exact processOne_state_eq_of_occupied active st d (by rw [hst, hd]; exact hocc)

/-- Concrete interface and descriptor fixtures used by the witnesses and
scenario theorems. -/
def iA : TypeRef := ⟨0, true, true⟩

/-- Interface fixture B. -/
def iB : TypeRef := ⟨1, true, true⟩

/-- Interface fixture C. -/
def iC : TypeRef := ⟨2, true, true⟩

/-- The three fixed base constructor parameters. -/
def baseParams : List CParam := [.pname, .ppriority, .pprofile]

/-- Descriptor fixture: service A, no dependencies. -/
def descA : Descriptor := ⟨"A", iA, baseParams, 10, [0]⟩

/-- Descriptor fixture: service B, depends on A. -/
def descB : Descriptor := ⟨"B", iB, baseParams ++ [.pdep iA], 5, [0]⟩

/-- Descriptor fixture: service C, depends on B. -/
def descC : Descriptor := ⟨"C", iC, baseParams ++ [.pdep iB], 1, [0]⟩

/-- A registry holding a single registration of A. -/
def demoReg : Registry := [⟨iA, 0, "A"⟩]

/-- Witness for C1 at a concrete reachable registry. -/
theorem at_most_one_registration_per_interface_witness :
    countFor demoReg iA ≤ 1 ∧
    register demoReg iA 1 "A2" = .error (.AlreadyRegisteredError iA) ∧
    (processOne 0 ⟨demoReg, 1⟩ descA).1 = ⟨demoReg, 1⟩ :=
  at_most_one_registration_per_interface demoReg
    (Reachable.regStep [] demoReg iA 0 "A" Reachable.empty rfl)
    iA 1 "A2" rfl 0 ⟨demoReg, 1⟩ descA rfl rfl

/-- C2: the scenario [A(no deps), B(deps: A), C(deps: B)] registers all
three services in list order; the reversed list [C, B, A] fails C and B
with MissingDependencyError and registers A. -/
theorem configuration_order_scenario :
    (runSequencer 0 ⟨[], 0⟩ [descA, descB, descC]).2 =
      [.registered "A" iA 0 [], .registered "B" iB 1 [0],
       .registered "C" iC 2 [1]] ∧
    (runSequencer 0 ⟨[], 0⟩ [descC, descB, descA]).2 =
      [.failedMissingDep ⟨iB, "C"⟩, .failedMissingDep ⟨iA, "B"⟩,
       .registered "A" iA 0 []] := by
  exact ⟨by decide, by decide⟩

/-- Resolution fails at the first unresolved parameter, naming it and the
dependent service. -/
theorem resolveDeps_first_missing (r : Registry) (n : String)
    (pre rest : List TypeRef) (t : TypeRef)
    (hpre : ∀ u ∈ pre, occupied r u = true)
    (ht : occupied r t = false) :
    resolveDeps r n (pre ++ t :: rest) = .error ⟨t, n⟩ := by
  induction pre with
  | nil =>
      rw [List.nil_append, resolveDeps,
        lookup_error_of_not_occupied r t ht]
  | cons u pre ih =>
      obtain ⟨i, hi⟩ := lookup_ok_of_occupied r u (hpre u (by simp))
      rw [List.cons_append, resolveDeps, hi,
        ih (fun v hv => hpre v (List.mem_cons_of_mem u hv))]
      rfl

/-- A resolution error always names the dependent service it was resolving
for. -/
theorem resolveDeps_error_dependent (r : Registry) (n : String)
    (ts : List TypeRef) (e : MissingDep)
    (h : resolveDeps r n ts = .error e) : e.dependent = n := by
  induction ts with
  | nil => simp [resolveDeps] at h
  | cons t ts ih =>
      cases hl : lookup r t with
      | error e2 =>
          simp only [resolveDeps, hl] at h
          cases h
          rfl
      | ok i =>
          cases hr : resolveDeps r n ts with
          | error e2 =>
              simp only [resolveDeps, hl, hr, Except.map] at h
              cases h
              exact ih hr
          | ok as =>
              simp only [resolveDeps, hl, hr, Except.map] at h
              exact Except.noConfusion h

/-- C3: an eligible descriptor whose declared dependency list has a first
unregistered interface fails with a MissingDependencyError naming that
parameter and the dependent service, and its registration is aborted (the
sequencer state is unchanged). -/
theorem missing_dependency_aborts_with_named_error (active : Nat)
    (st : SeqState) (d : Descriptor) (pre rest : List TypeRef) (t : TypeRef)
    (helig : isEligible d active = true)
    (hsig : declaredDeps d.ctorParams = some (pre ++ t :: rest))
    (hpre : ∀ u ∈ pre, occupied st.registry u = true)
    (ht : occupied st.registry t = false) :
    processOne active st d = (st, .failedMissingDep ⟨t, d.name⟩) := by
  have hres := resolveDeps_first_missing st.registry d.name pre rest t hpre ht
  simp only [processOne, helig, if_true, hsig, hres]

/-- Witness for C3: descriptor B with dependency A unregistered. -/
theorem missing_dependency_aborts_witness :
    processOne 0 ⟨[], 0⟩ descB = (⟨[], 0⟩, .failedMissingDep ⟨iA, "B"⟩) :=
  missing_dependency_aborts_with_named_error 0 ⟨[], 0⟩ descB [] [] iA
    (by decide) (by decide) (by intro u hu; cases hu) (by decide)

/-- Reassigning a descriptor's priority. -/
def setPriority (p : Nat) (d : Descriptor) : Descriptor :=
  ⟨d.name, d.interfaceType, d.ctorParams, p, d.platforms⟩

/-- The sequencer never reads the priority of a descriptor. -/
theorem processOne_setPriority (active : Nat) (st : SeqState)
    (d : Descriptor) (p : Nat) :
    processOne active st (setPriority p d) = processOne active st d := rfl

/-- A sequencer run is invariant under any priority reassignment. -/
theorem runSequencer_setPriority (active : Nat) (st : SeqState)
    (ds : List Descriptor) (f : Descriptor → Nat) :
    runSequencer active st (ds.map (fun d => setPriority (f d) d)) =
      runSequencer active st ds := by
  induction ds generalizing st with
  | nil => rfl
  | cons d ds ih =>
      simp only [List.map_cons, runSequencer, processOne_setPriority, ih]

/-- The outcome of processing a descriptor always reports that
descriptor's service name. -/
theorem processOne_sname (active : Nat) (st : SeqState) (d : Descriptor) :
    ((processOne active st d).2).sname = d.name := by
  rw [processOne]
  split
  · split
    · rfl
    · split
      · rename_i e heq
        exact resolveDeps_error_dependent _ _ _ _ heq
      · split
        · rfl
        · rfl
  · rfl

/-- The sequencer reports one outcome per descriptor, in configuration-list
order, each naming the descriptor at its list position. -/
theorem runSequencer_names (active : Nat) (st : SeqState)
    (ds : List Descriptor) :
    ((runSequencer active st ds).2).map Outcome.sname =
      ds.map Descriptor.name := by
  induction ds generalizing st with
  | nil => rfl
  | cons d ds ih =>
      simp only [runSequencer, List.map_cons, processOne_sname, ih]

/-- C4: registration attempts follow configuration-list order and are
unaffected by priority values: any priority reassignment yields the very
same sequencer run, and the reported outcomes follow the list order of the
descriptors. -/
theorem registration_order_ignores_priority (active : Nat) (st : SeqState)
    (ds : List Descriptor) (f : Descriptor → Nat) :
    runSequencer active st (ds.map (fun d => setPriority (f d) d)) =
      runSequencer active st ds ∧
    ((runSequencer active st ds).2).map Outcome.sname =
      ds.map Descriptor.name :=
  ⟨runSequencer_setPriority active st ds f, runSequencer_names active st ds⟩

/-- A failure outcome leaves the sequencer state untouched. -/
theorem processOne_state_of_failure (active : Nat) (st : SeqState)
    (d : Descriptor) (h : ((processOne active st d).2).isFailure = true) :
    (processOne active st d).1 = st := by
  cases he : isEligible d active with
  | false => simp [processOne, he]
  | true =>
      cases hdd : declaredDeps d.ctorParams with
      | none => simp [processOne, he, hdd]
      | some deps =>
          cases hres : resolveDeps st.registry d.name deps with
          | error e => simp [processOne, he, hdd, hres]
          | ok args =>
              cases hreg : register st.registry d.interfaceType st.nextInst
                  d.name with
              | error e2 => simp [processOne, he, hdd, hres, hreg]
              | ok r2 =>
                  have hout : ((processOne active st d).2) =
                      .registered d.name d.interfaceType st.nextInst args := by
                    simp [processOne, he, hdd, hres, hreg]
                  rw [hout] at h
                  exact absurd h (by simp [Outcome.isFailure])

/-- The sequencer reports exactly one outcome per descriptor. -/
theorem runSequencer_length (active : Nat) (st : SeqState)
    (ds : List Descriptor) :
    ((runSequencer active st ds).2).length = ds.length := by
  induction ds generalizing st with
  | nil => rfl
  | cons d ds ih => simp only [runSequencer, List.length_cons, ih]

/-- C5: a failing descriptor is reported as an outcome in the log, only its
own registration is aborted (state unchanged), and the sequencer continues
through every remaining descriptor, reporting one outcome per entry. -/
theorem failure_logged_and_sequencer_continues (active : Nat) (st : SeqState)
    (d : Descriptor) (rest : List Descriptor)
    (h : ((processOne active st d).2).isFailure = true) :
    (processOne active st d).1 = st ∧
    runSequencer active st (d :: rest) =
      ((runSequencer active st rest).1,
       (processOne active st d).2 :: (runSequencer active st rest).2) ∧
    ((runSequencer active st (d :: rest)).2).length = rest.length + 1 := by
  have h1 := processOne_state_of_failure active st d h
  refine ⟨h1, ?_, ?_⟩
  · simp only [runSequencer, h1]
  · exact runSequencer_length active st (d :: rest)

/-- Witness for C5: descriptor B fails on an empty registry and the
sequencer still processes descriptor A after it. -/
theorem failure_logged_witness :
    (processOne 0 ⟨[], 0⟩ descB).1 = ⟨[], 0⟩ ∧
    runSequencer 0 ⟨[], 0⟩ [descB, descA] =
      ((runSequencer 0 ⟨[], 0⟩ [descA]).1,
       (processOne 0 ⟨[], 0⟩ descB).2 :: (runSequencer 0 ⟨[], 0⟩ [descA]).2) ∧
    ((runSequencer 0 ⟨[], 0⟩ [descB, descA]).2).length = [descA].length + 1 :=
  failure_logged_and_sequencer_continues 0 ⟨[], 0⟩ descB [descA] (by decide)

/-- C6: a descriptor whose platform set excludes the active platform is
skipped entirely: no registration attempt, no error, state unchanged. -/
theorem platform_gate_skips_ineligible (active : Nat) (st : SeqState)
    (d : Descriptor) (h : d.platforms.contains active = false) :
    processOne active st d = (st, .skippedPlatform d.name) := by
  have he : isEligible d active = false := h
  simp [processOne, he]

/-- Descriptor fixture targeting a different platform than the active one. -/
def descOtherPlatform : Descriptor := ⟨"P", iC, baseParams, 0, [1]⟩

/-- Witness for C6: a descriptor for platform 1 is skipped when platform 0
is active. -/
theorem platform_gate_skips_witness :
    processOne 0 ⟨[], 0⟩ descOtherPlatform =
      (⟨[], 0⟩, .skippedPlatform "P") :=
  platform_gate_skips_ineligible 0 ⟨[], 0⟩ descOtherPlatform (by decide)

/-- Descriptor fixture: service A depending on B (cyclic with cycB). -/
def cycA : Descriptor := ⟨"A", iA, baseParams ++ [.pdep iB], 0, [0]⟩

/-- Descriptor fixture: service B depending on A (cyclic with cycA). -/
def cycB : Descriptor := ⟨"B", iB, baseParams ++ [.pdep iA], 0, [0]⟩

/-- C7 counterexample: on the cyclic configuration [A(dep B), B(dep A)] the
registration run terminates normally, evaluating to a definite final state
with one reported outcome per descriptor — contradicting the claim that
registration does not terminate normally.  Both failures are plain
MissingDependencyErrors; no cycle-specific detection occurs, and the
registry is unchanged. -/
theorem circular_dependency_terminates :
    runSequencer 0 ⟨[], 0⟩ [cycA, cycB] =
      (⟨[], 0⟩, [.failedMissingDep ⟨iB, "A"⟩,
                 .failedMissingDep ⟨iA, "B"⟩]) := by
  decide

/-- C7 amended: a two-service circular dependency is not detected as a
cycle — the one-level resolver reports a plain MissingDependencyError for
each service in the cycle — and the sequencer terminates, leaving the state
unchanged and processing the whole list. -/
theorem circular_dependency_undetected (active : Nat) (st : SeqState)
    (d1 d2 : Descriptor)
    (h1 : declaredDeps d1.ctorParams = some [d2.interfaceType])
    (h2 : declaredDeps d2.ctorParams = some [d1.interfaceType])
    (he1 : isEligible d1 active = true) (he2 : isEligible d2 active = true)
    (ho1 : occupied st.registry d1.interfaceType = false)
    (ho2 : occupied st.registry d2.interfaceType = false) :
    runSequencer active st [d1, d2] =
      (st, [.failedMissingDep ⟨d2.interfaceType, d1.name⟩,
            .failedMissingDep ⟨d1.interfaceType, d2.name⟩]) := by
  have hr1 := resolveDeps_first_missing st.registry d1.name [] []
    d2.interfaceType (by intro u hu; cases hu) ho2
  have hr2 := resolveDeps_first_missing st.registry d2.name [] []
    d1.interfaceType (by intro u hu; cases hu) ho1
  rw [List.nil_append] at hr1 hr2
  have p1 : processOne active st d1 =
      (st, .failedMissingDep ⟨d2.interfaceType, d1.name⟩) := by
    simp only [processOne, he1, if_true, h1, hr1]
  have p2 : processOne active st d2 =
      (st, .failedMissingDep ⟨d1.interfaceType, d2.name⟩) := by
    simp only [processOne, he2, if_true, h2, hr2]
  simp only [runSequencer, p1, p2]

/-- Witness for the amended C7: the concrete cyclic pair. -/
theorem circular_dependency_undetected_witness :
    runSequencer 0 ⟨[], 0⟩ [cycA, cycB] =
      (⟨[], 0⟩, [.failedMissingDep ⟨cycB.interfaceType, cycA.name⟩,
                 .failedMissingDep ⟨cycA.interfaceType, cycB.name⟩]) :=
  circular_dependency_undetected 0 ⟨[], 0⟩ cycA cycB (by decide) (by decide)
    (by decide) (by decide) (by decide) (by decide)

/-- No operation changes the cached active platform set. -/
theorem applyOp_platforms (p : ProcessState) (op : Op) :
    (applyOp p op).activePlatforms = p.activePlatforms := by
  cases op with
  | reg t i n => rw [applyOp]; split <;> rfl
  | unreg t => rw [applyOp]; split <;> rfl
  | look t => rfl
  | runSeq a ds => rfl

/-- Iterated operations keep the cached platform set. -/
theorem foldl_applyOp_platforms (ops : List Op) (p : ProcessState) :
    (ops.foldl applyOp p).activePlatforms = p.activePlatforms := by
  induction ops generalizing p with
  | nil => rfl
  | cons op ops ih => rw [List.foldl_cons, ih, applyOp_platforms]

/-- C8: the active platform set is computed once at process start and
cached; no subsequent operation sequence (registration, lookup,
unregistration, sequencer runs) re-evaluates or modifies the cached set. -/
theorem platforms_evaluated_once_and_cached (scanned : List Nat)
    (ops : List Op) :
    (ops.foldl applyOp (initProcess scanned)).activePlatforms = scanned :=
  foldl_applyOp_platforms ops (initProcess scanned)

/-- The constructor argument computed for each dependency: the instance
stored in the registry for that interface. -/
def argsOf (r : Registry) (ts : List TypeRef) : List Nat :=
  ts.map (fun t => ((lookup r t).toOption).getD 0)

/-- When every dependency is registered, resolution succeeds and returns,
in declared order, the instances stored in the registry. -/
theorem resolveDeps_ok_of_occupied (r : Registry) (n : String)
    (ts : List TypeRef) (h : ∀ u ∈ ts, occupied r u = true) :
    resolveDeps r n ts = .ok (argsOf r ts) := by
  induction ts with
  | nil => rfl
  | cons t ts ih =>
      obtain ⟨i, hi⟩ := lookup_ok_of_occupied r t (h t (by simp))
      rw [resolveDeps, hi, ih (fun u hu => h u (List.mem_cons_of_mem t hu))]
      simp [argsOf, hi, Except.map, Except.toOption]

/-- Appending a new registration does not change the lookup of an interface
already occupied before. -/
theorem lookup_append_of_occupied (r r2 : Registry) (u : TypeRef)
    (h : occupied r u = true) : lookup (r ++ r2) u = lookup r u := by
  rw [occupied, List.any_eq_true] at h
  obtain ⟨x, hx, hbeq⟩ := h
  rw [lookup, lookup, List.find?_append]
  cases hfind : r.find? (fun rs => rs.interfaceType == u) with
  | some rs => rfl
  | none =>
      rw [List.find?_eq_none] at hfind
      exact absurd hbeq (hfind x hx)

/-- The argument list computed before committing the new service coincides
with the lookups in the committed registry. -/
theorem argsOf_append (r : Registry) (x : RegisteredService)
    (ts : List TypeRef) (h : ∀ u ∈ ts, occupied r u = true) :
    argsOf (r ++ [x]) ts = argsOf r ts := by
  rw [argsOf, argsOf]
  exact List.map_congr_left
    (fun t ht => by rw [lookup_append_of_occupied r [x] t (h t ht)])

/-- C9: an eligible descriptor whose declared dependencies are all already
registered succeeds: one resolution pass computes the constructor
arguments from the registry, the new service is committed, and each
injected argument is identical to the instance stored in the committed
registry for the corresponding dependency interface. -/
theorem earlier_dependency_injection_identical (active : Nat)
    (st : SeqState) (d : Descriptor) (deps : List TypeRef)
    (helig : isEligible d active = true)
    (hsig : declaredDeps d.ctorParams = some deps)
    (hdeps : ∀ u ∈ deps, occupied st.registry u = true)
    (hfree : occupied st.registry d.interfaceType = false) :
    processOne active st d =
      (⟨st.registry ++ [⟨d.interfaceType, st.nextInst, d.name⟩],
        st.nextInst + 1⟩,
       .registered d.name d.interfaceType st.nextInst
         (argsOf st.registry deps)) ∧
    argsOf (st.registry ++ [⟨d.interfaceType, st.nextInst, d.name⟩]) deps =
      argsOf st.registry deps := by
  have hres := resolveDeps_ok_of_occupied st.registry d.name deps hdeps
  constructor
  · simp only [processOne, helig, if_true, hsig, hres, register, hfree,
      Bool.false_eq_true, if_false]
  · exact argsOf_append st.registry _ deps hdeps

/-- Witness for C9: B registered after A, its injected argument identical
to A's stored instance. -/
theorem earlier_dependency_injection_witness :
    processOne 0 ⟨[⟨iA, 5, "A"⟩], 7⟩ descB =
      (⟨[⟨iA, 5, "A"⟩, ⟨iB, 7, "B"⟩], 8⟩,
       .registered "B" iB 7 (argsOf [⟨iA, 5, "A"⟩] [iA])) ∧
    argsOf [⟨iA, 5, "A"⟩, ⟨iB, 7, "B"⟩] [iA] = argsOf [⟨iA, 5, "A"⟩] [iA] :=
  earlier_dependency_injection_identical 0 ⟨[⟨iA, 5, "A"⟩], 7⟩ descB [iA]
    (by decide) (by decide) (by decide) (by decide)

/-- Every valid dependency-parameter suffix consists solely of dependency
entries whose types are IService interfaces, extracted in declared order. -/
theorem depTypes_spec (ps : List CParam) (ts : List TypeRef)
    (h : depTypes ps = some ts) :
    ps = ts.map CParam.pdep ∧
    ts.all (fun t => t.isInterface && t.implementsIService) = true := by
  induction ps generalizing ts with
  | nil =>
      rw [depTypes] at h
      cases h
      exact ⟨rfl, rfl⟩
  | cons p ps ih =>
      cases p with
      | pname => rw [depTypes] at h; exact Option.noConfusion h
      | ppriority => rw [depTypes] at h; exact Option.noConfusion h
      | pprofile => rw [depTypes] at h; exact Option.noConfusion h
      | pdep t =>
          rw [depTypes] at h
          by_cases hc : (t.isInterface && t.implementsIService) = true
          · rw [if_pos hc] at h
            cases hd : depTypes ps with
            | none => rw [hd] at h; exact Option.noConfusion h
            | some us =>
                rw [hd, Option.map_some'] at h
                cases h
                obtain ⟨h1, h2⟩ := ih us hd
                refine ⟨by rw [List.map_cons, ← h1], ?_⟩
                rw [List.all_cons, hc, h2]
                rfl
          · rw [if_neg hc] at h; exact Option.noConfusion h

/-- C10: the injected dependencies are exactly the constructor parameters
after the three fixed base parameters (name, priority, profile), in
declared order, and every injected type is an interface implementing
IService — a concrete implementation type is never injected. -/
theorem injected_deps_follow_base_params (params : List CParam)
    (ts : List TypeRef) (h : declaredDeps params = some ts) :
    params = CParam.pname :: CParam.ppriority :: CParam.pprofile ::
      ts.map CParam.pdep ∧
    ts.all (fun t => t.isInterface && t.implementsIService) = true := by
  unfold declaredDeps at h
  split at h
  · rename_i rest
    obtain ⟨h1, h2⟩ := depTypes_spec rest ts h
    exact ⟨by rw [h1], h2⟩
  · exact Option.noConfusion h

/-- Witness for C10: descriptor B's constructor parameter list. -/
theorem injected_deps_witness :
    descB.ctorParams = CParam.pname :: CParam.ppriority :: CParam.pprofile ::
      [iA].map CParam.pdep ∧
    [iA].all (fun t => t.isInterface && t.implementsIService) = true :=
  injected_deps_follow_base_params descB.ctorParams [iA] (by decide)

end ServiceFramework
